import Mathlib

/-!
Shallow embedding of the bookstore HTTP service (`main.go`).

The service exposes five routes over a single `books` table, plus a startup
secret-bootstrap sequence (Vault Kubernetes login, versioned secret fetch,
merge into a viper configuration store).  The database and the secret store
are external collaborators; they are modelled as explicit state
(`DbState`) and explicit call outcomes (`Except`-valued parameters).
-/

namespace Bookstore

/-! ## JSON values

Responses and request bodies are modelled at the level of JSON values, not
serialized text: Go's `encoding/json` output `null` corresponds to
`Json.null`, `[]` to `Json.arr []`, and so on. -/

inductive Json where
  | null
  | bool (b : Bool)
  | num (q : ℚ)
  | str (s : String)
  | arr (xs : List Json)
  | obj (fields : List (String × Json))

/-! ## Data model: `Book` (main.go, type Book)

`Isbn`, `Title`, `Author` are Go strings; `Price` is `float32` in Go and
`decimal(5,2)` in the table.  The claims under study only compare prices for
equality, so the price is embedded as an exact rational. -/

structure Book where
  isbn : String
  title : String
  author : String
  price : ℚ
deriving DecidableEq, Repr

/-- The Go zero value of `Book` (`var bk Book`). -/
def zeroBook : Book := ⟨"", "", "", 0⟩

/-! ## Database state

The repository talks to PostgreSQL through a pooled connection.  A database
state is either unreachable (`down`) or reachable with the current rows of
the `books` table in result order (`up rows`). -/

inductive DbState where
  | down
  | up (rows : List Book)
deriving DecidableEq, Repr

/-! ## SQL statements (main.go, BookModel.All / Get / Create)

Each repository method prepares a fixed statement string and binds user
input only as parameters.  `SqlQuery` records exactly the text passed to
`Prepare` and the values passed to `Query`/`QueryRow`/`Exec`. -/

inductive SqlValue where
  | s (v : String)
  | q (v : ℚ)
deriving DecidableEq, Repr

structure SqlQuery where
  text : String
  args : List SqlValue
deriving DecidableEq, Repr

/-- Statement issued by `BookModel.All`. -/
def allQuery : SqlQuery :=
  ⟨"SELECT * FROM books", []⟩

/-- Statement issued by `BookModel.Get isbn`: the isbn is bound as `$1`. -/
def getQuery (isbn : String) : SqlQuery :=
  ⟨"SELECT * FROM books WHERE isbn=$1;", [.s isbn]⟩

/-- Statement issued by `BookModel.Create bk`: the four fields are bound as
`$1`–`$4`. -/
def createQuery (bk : Book) : SqlQuery :=
  ⟨"INSERT INTO books (isbn, title, author, price) VALUES ($1, $2, $3, $4);",
   [.s bk.isbn, .s bk.title, .s bk.author, .q bk.price]⟩

/-! ## Repository semantics (main.go, BookModel)

`All` scans every row in result order into a slice that starts as the nil
slice (`var bks []Book`) and grows by `append`; it is therefore nil exactly
when the table has no rows.  `Get` runs `getQuery` and scans the single
result row; zero matching rows surface as the driver error
`sql: no rows in result set`.  `Create` runs `createQuery`; the table's
primary key on `isbn` rejects a duplicate isbn with a constraint
violation. -/

def BookModel.All (db : DbState) : Except String (List Book) :=
  match db with
  | .down => .error "dial tcp: connection refused"
  | .up rows => .ok rows

def BookModel.Get (db : DbState) (isbn : String) : Except String Book :=
  match db with
  | .down => .error "dial tcp: connection refused"
  | .up rows =>
    match rows.find? (fun r => r.isbn = isbn) with
    | some bk => .ok bk
    | none => .error "sql: no rows in result set"

def BookModel.Create (db : DbState) (bk : Book) : Except String DbState :=
  match db with
  | .down => .error "dial tcp: connection refused"
  | .up rows =>
    if rows.any (fun r => r.isbn = bk.isbn) then
      .error "pq: duplicate key value violates unique constraint \x7bbooks_pkey\x7d"
    else
      .ok (.up (rows ++ [bk]))

/-- Health check (main.go, `App.CheckDBConn`): runs `SELECT 1` and consumes
the single result row; succeeds exactly when the database is reachable. -/
def App.CheckDBConn (db : DbState) : Except String Unit :=
  match db with
  | .down => .error "dial tcp: connection refused"
  | .up _ => .ok ()

/-! ## ResponseWriter model

`net/http` semantics used by the health handlers: `WriteHeader` sends the
status line at most once (a second call is superfluous and ignored), the
headers in effect are those set before the first `WriteHeader`, and every
`Fprintln` appends one line to the body. -/

structure RW where
  status : Option Nat
  sentContentType : Option String
  pendingContentType : Option String
  body : List String
deriving DecidableEq, Repr

def RW.init : RW := ⟨none, none, none, []⟩

def RW.setContentType (w : RW) (ct : String) : RW :=
  { w with pendingContentType := some ct }

def RW.writeHeader (w : RW) (code : Nat) : RW :=
  match w.status with
  | some _ => w
  | none => { w with status := some code, sentContentType := w.pendingContentType }

def RW.fprintln (w : RW) (s : String) : RW :=
  { w with body := w.body ++ [s] }

def plainContentType : String := "text/plain; charset=utf-8"

/-- `http.Error(w, error, code)`: sets a plain-text content type, writes the
status code, then writes the error line. -/
def httpError (w : RW) (error : String) (code : Nat) : RW :=
  ((w.setContentType plainContentType).writeHeader code).fprintln error

/-- `Respond(w, text, code)` (main.go): sets a plain-text content type,
writes the status code, then writes the text line. -/
def Respond (w : RW) (text : String) (code : Nat) : RW :=
  ((w.setContentType plainContentType).writeHeader code).fprintln text

/-- `http.StatusText` for the codes this program uses. -/
def statusText (code : Nat) : String :=
  if code = 200 then "OK"
  else if code = 400 then "Bad Request"
  else if code = 500 then "Internal Server Error"
  else ""

/-! ## Health handlers (main.go, `Env.appHealth` / `Env.appReady`)

Both run `CheckDBConn`; on error they call `http.Error(w, 500)` and — with
no `return` in the error branch — fall through to `Respond(w, "OK", 200)`,
which in Go appends to the already-started 500 response. -/

def Env.appHealth (db : DbState) : RW :=
  match App.CheckDBConn db with
  | .error _ => Respond (httpError RW.init (statusText 500) 500) (statusText 200) 200
  | .ok _ => Respond RW.init (statusText 200) 200

def Env.appReady (db : DbState) : RW :=
  match App.CheckDBConn db with
  | .error _ => Respond (httpError RW.init (statusText 500) 500) (statusText 200) 200
  | .ok _ => Respond RW.init (statusText 200) 200

/-! ## JSON marshaling of books (Go `encoding/json`) -/

/-- Marshal one `Book`: field names come from the struct tags
`ISBN`, `Title`, `Author`, `Price`. -/
def encodeBook (b : Book) : Json :=
  .obj [("ISBN", .str b.isbn), ("Title", .str b.title),
        ("Author", .str b.author), ("Price", .num b.price)]

/-- Marshal the `[]Book` slice returned by `All`.  Go marshals a nil slice
as `null`; `All` builds its slice from `var bks []Book` by `append`, so its
result is the nil slice exactly when it is empty. -/
def encodeBookSlice (l : List Book) : Json :=
  if l.isEmpty then .null else .arr (l.map encodeBook)

/-! ## JSON handlers (main.go, `Env.booksIndex` / `Env.bookByISBN`) -/

inductive RespBody where
  | text (lines : List String)
  | json (j : Json)

structure HResp where
  status : Nat
  body : RespBody

def Env.booksIndex (db : DbState) : HResp :=
  match BookModel.All db with
  | .error _ => ⟨500, .text [statusText 500]⟩
  | .ok bks => ⟨200, .json (encodeBookSlice bks)⟩

def Env.bookByISBN (db : DbState) (isbn : String) : HResp :=
  match BookModel.Get db isbn with
  | .error _ => ⟨500, .text [statusText 500]⟩
  | .ok bk => ⟨200, .json (encodeBook bk)⟩

/-! ## JSON decoding of a request body into `Book`

`json.NewDecoder(r.Body).Decode(&bk)` first requires syntactically valid
JSON (a body that is not is `RequestBody.malformed` here), then maps the
value onto the struct: a JSON object assigns each member to the struct
field whose tag matches the key (Go matches exactly, else
case-insensitively; the four tags differ case-insensitively, so one
case-insensitive comparison is equivalent), unknown keys are ignored,
later duplicate keys overwrite earlier ones, `null` leaves a field at its
zero value, a type-mismatched member is an `UnmarshalTypeError`, and a
top-level value that is neither an object nor `null` is an error. -/

inductive RequestBody where
  | malformed
  | wellFormed (j : Json)

/-! ASCII case mapping.  Go's field matching (`strings.EqualFold`) and
viper's key normalisation (`strings.ToLower` / `strings.ToUpper`) are
Unicode-aware; every key this program handles is plain ASCII, for which
the following letter-by-letter mapping coincides with them. -/

def lowerChar (c : Char) : Char :=
  if 65 ≤ c.toNat ∧ c.toNat ≤ 90 then Char.ofNat (c.toNat + 32) else c

def upperChar (c : Char) : Char :=
  if 97 ≤ c.toNat ∧ c.toNat ≤ 122 then Char.ofNat (c.toNat - 32) else c

def lowerKey (s : String) : String := ⟨s.data.map lowerChar⟩

def upperKey (s : String) : String := ⟨s.data.map upperChar⟩

def keyMatches (key tag : String) : Bool :=
  lowerKey key = lowerKey tag

def setField (bk : Book) (key : String) (v : Json) : Except String Book :=
  if keyMatches key "ISBN" then
    match v with
    | .str s => .ok { bk with isbn := s }
    | .null => .ok bk
    | _ => .error "json: cannot unmarshal value into Go struct field Book.ISBN of type string"
  else if keyMatches key "Title" then
    match v with
    | .str s => .ok { bk with title := s }
    | .null => .ok bk
    | _ => .error "json: cannot unmarshal value into Go struct field Book.Title of type string"
  else if keyMatches key "Author" then
    match v with
    | .str s => .ok { bk with author := s }
    | .null => .ok bk
    | _ => .error "json: cannot unmarshal value into Go struct field Book.Author of type string"
  else if keyMatches key "Price" then
    match v with
    | .num q => .ok { bk with price := q }
    | .null => .ok bk
    | _ => .error "json: cannot unmarshal value into Go struct field Book.Price of type float32"
  else
    .ok bk

def decodeBook (j : Json) : Except String Book :=
  match j with
  | .null => .ok zeroBook
  | .obj fields => fields.foldlM (fun bk kv => setField bk kv.1 kv.2) zeroBook
  | _ => .error "json: cannot unmarshal value into Go value of type main.Book"

/-! ## Create handler (main.go, `Env.createBook`)

Decode failure → 400 and return (the repository is never called); then
`Create`; repository failure → 500; success → 200 with a JSON echo of the
decoded book.  `createCalled` records whether `env.books.Create` ran. -/

structure CreateResult where
  resp : HResp
  db : DbState
  createCalled : Bool

def Env.createBook (body : RequestBody) (db : DbState) : CreateResult :=
  match body with
  | .malformed => ⟨⟨400, .text [statusText 400]⟩, db, false⟩
  | .wellFormed j =>
    match decodeBook j with
    | .error _ => ⟨⟨400, .text [statusText 400]⟩, db, false⟩
    | .ok bk =>
      match BookModel.Create db bk with
      | .error _ => ⟨⟨500, .text [statusText 500]⟩, db, true⟩
      | .ok db2 => ⟨⟨200, .json (encodeBook bk)⟩, db2, true⟩

/-! ## Configuration store (spf13/viper, as used by main.go)

`init` creates a viper store and calls `AutomaticEnv()`.  Viper's `find`
consults sources in a fixed precedence order; with `AutomaticEnv` applied
and no explicit `Set`/flags, the relevant prefix of that order is: the
process environment first (key upper-cased by `mergeWithEnvPrefix`, no
prefix configured), then the config layer (keys lower-cased by
`insensitivise`).  `MergeConfigMap` merges a map into the config layer,
its entries overwriting existing config entries of the same key.  Both
layers are association lists looked up by first match. -/

structure ViperState where
  env : List (String × String)
  config : List (String × String)

def lookupKV (m : List (String × String)) (k : String) : Option String :=
  (m.find? (fun p => p.1 = k)).map Prod.snd

def insensitivise (m : List (String × String)) : List (String × String) :=
  m.map (fun p => (lowerKey p.1, p.2))

def ViperState.getString (v : ViperState) (key : String) : String :=
  match lookupKV v.env (upperKey key) with
  | some val => val
  | none => (lookupKV v.config (lowerKey key)).getD ""

def ViperState.mergeConfigMap (v : ViperState) (m : List (String × String)) : ViperState :=
  { v with config := insensitivise m ++ v.config }

/-! ## Startup sequence (main.go, `init`)

The outcomes of the external calls are parameters: `clientOk` for
`vault.NewClient`, `loginResult` for `loginVaultKubernetes` (which wraps
`auth.NewKubernetesAuth`, `client.Auth().Login`, and the nil-auth-info
check, each returning an error), `fetchResult` for `KVv2(mount).Get`, and
`mergeErr` for the error value of `conf.MergeConfigMap`.  A `.fatal`
outcome is `log.Fatalf`: the process exits before serving any request. -/

inductive InitOutcome where
  | fatal (msg : String)
  | started (conf : ViperState)

def initBookstore (v : ViperState) (clientOk : Bool)
    (loginResult : Except String Unit)
    (fetchResult : Except String (List (String × String)))
    (mergeErr : Option String) : InitOutcome :=
  if !clientOk then .fatal "unable to initialize Vault client" else
  -- a login error is only logged: `log.Println("vault login failed: %w", err)`
  match loginResult, fetchResult with
  | _, .error e => .fatal ("unable to read secret: " ++ e)
  | _, .ok data =>
    match mergeErr with
    | some e => .fatal ("unable to merge secret: " ++ e)
    | none => .started (v.mergeConfigMap data)

/-! ## Sample data used by witnesses -/

def emma : Book := ⟨"978-1503261969", "Emma", "Jayne Austen", 944/100⟩

def emmaJson : Json :=
  .obj [("ISBN", .str "978-1503261969"), ("Title", .str "Emma"),
        ("Author", .str "Jayne Austen"), ("Price", .num (944/100))]

/-! ## Helper lemmas -/

/-- First-match lookup in an association list ignores the second list when
the first list already contains the key. -/
theorem lookupKV_append_of_some (a b : List (String × String)) (k val : String)
    (h : lookupKV a k = some val) : lookupKV (a ++ b) k = some val := by
  induction a with
  | nil => simp [lookupKV] at h
  | cons p ps ih =>
    by_cases hk : p.1 = k
    · rw [lookupKV, List.cons_append, List.find?_cons_of_pos _ (by simpa using hk)]
      rw [lookupKV, List.find?_cons_of_pos _ (by simpa using hk)] at h
      exact h
    · rw [lookupKV, List.cons_append, List.find?_cons_of_neg _ (by simpa using hk)]
      rw [lookupKV, List.find?_cons_of_neg _ (by simpa using hk)] at h
      exact ih h

/-- Appending a book whose isbn occurs nowhere in `rows` makes it the first
(and only) match of a search for that isbn. -/
theorem find?_append_fresh (rows : List Book) (bk : Book)
    (h : rows.any (fun r => r.isbn = bk.isbn) = false) :
    (rows ++ [bk]).find? (fun r => r.isbn = bk.isbn) = some bk := by
  induction rows with
  | nil =>
    rw [List.nil_append, List.find?_cons_of_pos _ (by simp)]
  | cons r rs ih =>
    simp only [List.any_cons, Bool.or_eq_false_iff] at h
    rw [List.cons_append, List.find?_cons_of_neg _ (by simp [h.1])]
    exact ih h.2

/-! ## Claims -/

/-- C1, counterexample: with `DB_USER` present both in the process
environment (value `envuser`) and in the merged secret bundle (value
`vaultuser`), `GetString` returns the environment value, not the
secret-bundle value. -/
theorem C1_counterexample :
    (ViperState.mergeConfigMap ⟨[("DB_USER", "envuser")], []⟩
        [("DB_USER", "vaultuser")]).getString "DB_USER" = "envuser" ∧
    ("envuser" : String) ≠ "vaultuser" := by
  exact ⟨by decide, by decide⟩

/-- C1, amended: after the startup merge, `GetString` satisfies the
opposite precedence to the one claimed — for a key present in the process
environment the environment value is returned (even when the secret bundle
also carries the key), and a secret-bundle value is returned only when the
key is absent from the environment. -/
theorem C1_env_beats_secret (v : ViperState) (m : List (String × String))
    (key val : String) :
    (lookupKV v.env (upperKey key) = some val →
      (v.mergeConfigMap m).getString key = val) ∧
    (lookupKV v.env (upperKey key) = none →
      lookupKV (insensitivise m) (lowerKey key) = some val →
      (v.mergeConfigMap m).getString key = val) := by
  constructor
  · intro h
    simp [ViperState.getString, ViperState.mergeConfigMap, h]
  · intro h1 h2
    simp [ViperState.getString, ViperState.mergeConfigMap, h1,
      lookupKV_append_of_some _ _ _ _ h2]

/-- C1, witness for the amended theorem at concrete stores: the
environment value `envuser` wins for `DB_USER`, and the bundle value `vp`
is served for `DB_PASS`, which the environment lacks. -/
theorem C1_env_beats_secret_witness :
    (ViperState.mergeConfigMap ⟨[("DB_USER", "envuser")], []⟩
        [("DB_PASS", "vp")]).getString "DB_USER" = "envuser" ∧
    (ViperState.mergeConfigMap ⟨[("DB_USER", "envuser")], []⟩
        [("DB_PASS", "vp")]).getString "DB_PASS" = "vp" :=
  ⟨(C1_env_beats_secret ⟨[("DB_USER", "envuser")], []⟩ [("DB_PASS", "vp")]
      "DB_USER" "envuser").1 (by decide),
   (C1_env_beats_secret ⟨[("DB_USER", "envuser")], []⟩ [("DB_PASS", "vp")]
      "DB_PASS" "vp").2 (by decide) (by decide)⟩

/-- C2: the two health routes do behave identically to each other and both
answer 200 with the plain line `OK` on success; but on a failing health
check the error branch lacks a `return`, so after the 500 error line the
success line `OK` is also appended — the failure body is
`Internal Server Error` then `OK`, not the plain error text alone (the
status stays 500 because the second `WriteHeader` is ignored). -/
theorem C2_health_fallthrough :
    Env.appHealth .down =
      ⟨some 500, some plainContentType, some plainContentType,
       ["Internal Server Error", "OK"]⟩ ∧
    Env.appReady .down = Env.appHealth .down ∧
    Env.appHealth (.up []) =
      ⟨some 200, some plainContentType, some plainContentType, ["OK"]⟩ ∧
    Env.appReady (.up []) = Env.appHealth (.up []) ∧
    (Env.appHealth .down).body ≠ [statusText 500] :=
  ⟨rfl, rfl, rfl, rfl, by decide⟩

/-- C3, counterexample: on an empty table `GET /books` answers 200 with the
JSON value `null` (Go marshals the nil slice built by `All` as `null`),
which is not the empty JSON array. -/
theorem C3_counterexample :
    Env.booksIndex (.up []) = ⟨200, .json .null⟩ ∧
    Json.null ≠ Json.arr [] :=
  ⟨rfl, fun h => Json.noConfusion h⟩

/-- C3, amended: whenever `All` succeeds on a nonempty table, `GET /books`
answers 200 with a JSON array holding one element per row in result order;
on an empty table it answers 200 with the JSON value `null` (the nil slice
marshals as `null`, not as an empty array). -/
theorem C3_index_lists_rows (rows : List Book) (h : rows ≠ []) :
    Env.booksIndex (.up rows) = ⟨200, .json (.arr (rows.map encodeBook))⟩ ∧
    Env.booksIndex (.up []) = ⟨200, .json .null⟩ := by
  constructor
  · cases rows with
    | nil => exact absurd rfl h
    | cons b bs => rfl
  · rfl

/-- C3, witness for the amended theorem at a one-row table. -/
theorem C3_index_lists_rows_witness :
    Env.booksIndex (.up [emma]) = ⟨200, .json (.arr [encodeBook emma])⟩ ∧
    Env.booksIndex (.up []) = ⟨200, .json .null⟩ :=
  C3_index_lists_rows [emma] (by simp)

/-- C4: round-trip — whenever `Create` succeeds on a reachable database,
`Get` on the resulting state with the inserted book's isbn returns a book
whose four fields are identical to the inserted ones. -/
theorem C4_create_get_roundtrip (rows : List Book) (bk : Book) (db2 : DbState)
    (h : BookModel.Create (.up rows) bk = .ok db2) :
    BookModel.Get db2 bk.isbn = .ok bk := by
  unfold BookModel.Create at h
  by_cases hdup : rows.any (fun r => r.isbn = bk.isbn) = true
  · simp [hdup] at h
  · have hfresh : rows.any (fun r => r.isbn = bk.isbn) = false :=
      Bool.not_eq_true _ ▸ hdup
    simp only [hfresh, Bool.false_eq_true, if_false, Except.ok.injEq] at h
    subst h
    simp [BookModel.Get, find?_append_fresh rows bk hfresh]

/-- C4, witness: inserting a concrete book into the empty table and reading
it back by isbn returns the identical book. -/
theorem C4_create_get_roundtrip_witness :
    BookModel.Get (.up [emma]) emma.isbn = .ok emma :=
  C4_create_get_roundtrip [] emma (.up [emma]) rfl

/-- C5: when no row matches the isbn, `Get` fails with the driver's
no-rows error and `GET /books/{isbn}` answers 500 with the generic plain
body — never 200 — and an unreachable database produces the very same
response, so not-found is not distinguished from other data-access
failures. -/
theorem C5_missing_isbn_500 (rows : List Book) (isbn : String)
    (h : ∀ r ∈ rows, r.isbn ≠ isbn) :
    BookModel.Get (.up rows) isbn = .error "sql: no rows in result set" ∧
    Env.bookByISBN (.up rows) isbn = ⟨500, .text [statusText 500]⟩ ∧
    Env.bookByISBN .down isbn = ⟨500, .text [statusText 500]⟩ := by
  have hf : rows.find? (fun r => r.isbn = isbn) = none := by
    rw [List.find?_eq_none]
    intro x hx
    simpa using h x hx
  refine ⟨?_, ?_, rfl⟩
  · simp [BookModel.Get, hf]
  · simp [Env.bookByISBN, BookModel.Get, hf]

/-- C5, witness: looking up an absent isbn in a one-row table yields the
no-rows error and the 500 response. -/
theorem C5_missing_isbn_500_witness :
    BookModel.Get (.up [emma]) "978-0000000000" = .error "sql: no rows in result set" ∧
    Env.bookByISBN (.up [emma]) "978-0000000000" = ⟨500, .text [statusText 500]⟩ ∧
    Env.bookByISBN .down "978-0000000000" = ⟨500, .text [statusText 500]⟩ :=
  C5_missing_isbn_500 [emma] "978-0000000000" (by decide)

/-- C6: a syntactically malformed request body makes `POST /books` answer
400 with the generic plain body, leave the database state unchanged, and
never call `Create`. -/
theorem C6_malformed_400_no_db (db : DbState) :
    Env.createBook .malformed db = ⟨⟨400, .text [statusText 400]⟩, db, false⟩ :=
  rfl

/-- C7: startup error handling is asymmetric — a failed Vault login leaves
the outcome identical to a successful login (it is only logged and startup
continues to a started state when fetch and merge succeed), while a failed
secret fetch or a failed merge each end in a fatal exit, so no request is
ever served. -/
theorem C7_startup_asymmetry (v : ViperState) (e em : String)
    (lr : Except String Unit) (d : List (String × String)) (me : Option String) :
    initBookstore v true (.error e) (.ok d) none = .started (v.mergeConfigMap d) ∧
    initBookstore v true (.error e) (.ok d) me = initBookstore v true (.ok ()) (.ok d) me ∧
    initBookstore v true lr (.error em) me = .fatal ("unable to read secret: " ++ em) ∧
    initBookstore v true lr (.ok d) (some em) = .fatal ("unable to merge secret: " ++ em) := by
  refine ⟨rfl, rfl, ?_, ?_⟩
  · cases lr <;> rfl
  · cases lr <;> rfl

/-- C8: every SQL statement is parameterized — the text handed to
`Prepare` by `All`, `Get`, and `Create` is a fixed constant independent of
all user input, and the input reaches the database only through the bound
argument list. -/
theorem C8_sql_parameterized (i1 i2 : String) (b1 b2 : Book) :
    allQuery.text = "SELECT * FROM books" ∧
    allQuery.args = [] ∧
    (getQuery i1).text = "SELECT * FROM books WHERE isbn=$1;" ∧
    (getQuery i1).text = (getQuery i2).text ∧
    (getQuery i1).args = [.s i1] ∧
    (createQuery b1).text =
      "INSERT INTO books (isbn, title, author, price) VALUES ($1, $2, $3, $4);" ∧
    (createQuery b1).text = (createQuery b2).text ∧
    (createQuery b1).args = [.s b1.isbn, .s b1.title, .s b1.author, .q b1.price] :=
  ⟨rfl, rfl, rfl, rfl, rfl, rfl, rfl, rfl⟩

/-- C9, counterexample: the empty JSON array is syntactically valid JSON,
yet decoding it into a `Book` fails and `POST /books` answers 400 without
calling `Create` — so the 400 branch does not fire only on syntactically
invalid bodies. -/
theorem C9_counterexample :
    decodeBook (.arr []) =
      .error "json: cannot unmarshal value into Go value of type main.Book" ∧
    Env.createBook (.wellFormed (.arr [])) (.up []) =
      ⟨⟨400, .text [statusText 400]⟩, .up [], false⟩ :=
  ⟨rfl, rfl⟩

/-- C9, amended: the 400 branch fires on syntactically invalid bodies and
on valid JSON that does not decode into the Book shape; the empty object
decodes to the all-zero book (empty strings, price 0), and whenever
decoding succeeds the handler goes on to call `Create` with the decoded
book, so the database is contacted with those zero-value fields. -/
theorem C9_decode_shapes (j : Json) (bk : Book) (db : DbState) (e : String) :
    decodeBook (.obj []) = .ok zeroBook ∧
    zeroBook = ⟨"", "", "", 0⟩ ∧
    (decodeBook j = .error e →
      Env.createBook (.wellFormed j) db = ⟨⟨400, .text [statusText 400]⟩, db, false⟩) ∧
    (decodeBook j = .ok bk →
      (Env.createBook (.wellFormed j) db).createCalled = true) := by
  refine ⟨rfl, rfl, ?_, ?_⟩
  · intro h
    simp [Env.createBook, h]
  · intro h
    simp only [Env.createBook, h]
    cases hc : BookModel.Create db bk <;> simp [hc]

/-- C9, witness: posting the empty object to the empty table decodes to
the zero book and reaches `Create`. -/
theorem C9_decode_shapes_witness :
    (Env.createBook (.wellFormed (.obj [])) (.up [])).createCalled = true :=
  (C9_decode_shapes (.obj []) zeroBook (.up []) "").2.2.2 rfl

/-- C10: `Create` leaves the decoded book untouched, so a successful
`POST /books` answers 200 with a JSON body that is exactly the encoding of
the book decoded from the client's request — same ISBN, Title, Author and
Price, nothing server-generated or altered. -/
theorem C10_create_echoes_request (j : Json) (bk : Book) (db db2 : DbState)
    (h1 : decodeBook j = .ok bk) (h2 : BookModel.Create db bk = .ok db2) :
    Env.createBook (.wellFormed j) db = ⟨⟨200, .json (encodeBook bk)⟩, db2, true⟩ := by
  simp [Env.createBook, h1, h2]

/-- C10, witness: posting a fully-populated concrete book to the empty
table echoes exactly that book back. -/
theorem C10_create_echoes_request_witness :
    Env.createBook (.wellFormed emmaJson) (.up []) =
      ⟨⟨200, .json (encodeBook emma)⟩, .up [emma], true⟩ :=
  C10_create_echoes_request emmaJson emma (.up []) (.up [emma]) rfl rfl

end Bookstore
